import Mathlib

/-!
Verification of `src/aws-ci/git_check_release.py` (the Release Sync Runner).

The script is a linear sequence of external command invocations with string
interpolation and one conditional branch on a substring test of the captured
merge output.  We embed it shallowly:

* branch-name derivation (source lines 15, 16, 20) as string functions;
* Python's `pat in s` substring test as contiguous-sublist membership;
* the body of `main` as a function producing the list of observable events
  (external commands issued, directory change, prints, uncaptured stderr),
  parametrised by the version string, the text the merge writes to stdout
  (captured) and to stderr (not captured), and an oracle giving each
  `os.system` call's exit status — which the source discards, as `os.system`
  never raises on a non-zero status;
* the `argparse` default `2.4` (a Python float) together with the fragment of
  CPython float formatting (`str`/`format`, shortest round-tripping decimal
  repr of an IEEE-754 double) needed to evaluate it, using exact rationals.
-/

/-- Observable events of one run of `main`. -/
inductive Event where
  /-- An `os.system cmd` call: fire-and-forget external command, status ignored. -/
  | system (cmd : String)
  /-- An `os.chdir dir` call. -/
  | chdir (dir : String)
  /-- A `subprocess.run argv` call with `stdout=subprocess.PIPE`: stdout captured. -/
  | runCapture (argv : List String)
  /-- text printed to stdout by the script itself. -/
  | printed (msg : String)
  /-- text the merge child process writes to stderr; not captured, it goes
  straight to the console. -/
  | consoleErr (msg : String)
  deriving DecidableEq, Repr

/-- Source line 15: `tf_branch = "r{tf_version}_aws".format(tf_version=args.tf_version)`. -/
def tf_branch (v : String) : String := "r" ++ v ++ "_aws"

/-- Source line 16: `git_branch = "r{tf_version}".format(tf_version=args.tf_version)`. -/
def git_branch (v : String) : String := "r" ++ v

/-- The sync-branch name `"r{tf_version}_aws_git"` as formatted inline at
source lines 20, 29 and 31 (the source binds no variable for it). -/
def sync_branch (v : String) : String := "r" ++ v ++ "_aws_git"

/-- Python's `pat in s` on strings: `pat` occurs contiguously in `s`. -/
def pyIn (pat s : String) : Bool := decide (pat.data <:+: s.data)

/-- Source line 26: the captured merge output is classified as up to date
iff it contains the literal `"Already up to date"`. -/
def upToDate (output : String) : Bool := pyIn "Already up to date" output

/-- Source line 17: the clone command. -/
def cloneCmd : String := "git clone codecommit::us-west-2://aws-tensorflow"

/-- Source line 21: the remote-add command. -/
def remoteAddCmd : String :=
  "git remote add google https://github.com/tensorflow/tensorflow.git"

/-- Source line 23: the argv of the captured merge invocation. -/
def pullArgv (v : String) : List String :=
  ["git", "pull", "--commit", "google", git_branch v]

/-- Source lines 30-32: the `aws codecommit create-pull-request` command,
built by `str.format` from `tf_version` and `tf_branch`. -/
def prCmd (v : String) : String :=
  "aws codecommit create-pull-request --title \"TF" ++ v ++
  " git sync\" --description \"Sync tf " ++ v ++
  " with vanilla tf branch\" --client-request-token request_token" ++
  " --targets repositoryName=aws-tensorflow,sourceReference=r" ++ v ++
  "_aws_git,destinationReference=" ++ tf_branch v

/-- The body of `main` (source lines 14-32) as its trace of observable
events.  `v` is the formatted `args.tf_version`; `mergeStdout` is what the
merge child writes to stdout (captured and decoded at line 23);
`mergeStderr` is what it writes to stderr (not captured — it reaches the
console directly); `exitStatus` gives the status each `os.system` call
returns — bound and dropped here exactly as the source drops the return
value of every `os.system` expression statement. -/
def runMain (v mergeStdout mergeStderr : String) (exitStatus : String → Int) :
    List Event :=
  let _s1 := exitStatus cloneCmd
  let _s2 := exitStatus ("git checkout " ++ tf_branch v)
  let _s3 := exitStatus ("git checkout -b r" ++ v ++ "_aws_git")
  let _s4 := exitStatus remoteAddCmd
  let _s5 := exitStatus "git status"
  [Event.system cloneCmd,
   Event.chdir "aws-tensorflow/",
   Event.system ("git checkout " ++ tf_branch v),
   Event.system ("git checkout -b r" ++ v ++ "_aws_git"),
   Event.system remoteAddCmd,
   Event.printed ("git pull --commit google " ++ git_branch v),
   Event.runCapture (pullArgv v),
   Event.consoleErr mergeStderr,
   Event.printed mergeStdout,
   Event.system "git status"] ++
  (if upToDate mergeStdout then
    [Event.printed "Branch already up to date."]
  else
    let _s6 := exitStatus ("git push --set-upstream origin r" ++ v ++ "_aws_git")
    let _s7 := exitStatus (prCmd v)
    [Event.system ("git push --set-upstream origin r" ++ v ++ "_aws_git"),
     Event.system (prCmd v)])

/-- Is the event an external-process invocation or directory change (as
opposed to text output)? -/
def Event.isExternal : Event → Bool
  | .system _ => true
  | .chdir _ => true
  | .runCapture _ => true
  | .printed _ => false
  | .consoleErr _ => false

/-- Is the event the uncaptured stderr of the merge child? -/
def Event.isConsoleErr : Event → Bool
  | .consoleErr _ => true
  | _ => false

/-!
CPython float semantics needed for the `argparse` default `2.4`
(source line 9, `default=2.4`): the literal is parsed to the IEEE-754
double nearest to 24/10, and `str.format` renders a float by `repr`,
the shortest decimal string that parses back to the same double
(fixed-point notation in the magnitude range used here).  We model a
double by the exact nonnegative rational it denotes, carried as a
numerator/denominator pair of naturals so that every step is plain
natural-number arithmetic.
-/

/-- A nonnegative rational as a numerator/denominator pair (denominator
positive; not necessarily reduced).  Used to carry the exact values of
doubles and of decimal literals. -/
def PosRat : Type := ℕ × ℕ

/-- Equality of the denoted rationals, by cross-multiplication. -/
def pqEq (a b : PosRat) : Bool := a.1 * b.2 == b.1 * a.2

/-- Floor of the denoted rational. -/
def pqFloor (q : PosRat) : ℕ := q.1 / q.2

/-- Round the denoted rational to the nearest natural, ties to even
(IEEE-754 default rounding, also used in correctly rounded decimal
conversion). -/
def pqRoundHalfEven (q : PosRat) : ℕ :=
  let f := q.1 / q.2
  let r := q.1 % q.2
  if 2 * r < q.2 then f
  else if q.2 < 2 * r then f + 1
  else if f % 2 = 0 then f else f + 1

/-- Multiply by a natural. -/
def pqMulNat (q : PosRat) (k : ℕ) : PosRat := (q.1 * k, q.2)

/-- Divide by a positive natural. -/
def pqDivNat (q : PosRat) (k : ℕ) : PosRat := (q.1, q.2 * k)

/-- Fueled ⌊log₂⌋ (structural recursion, kernel-reducible). -/
def floorLog2 : ℕ → ℕ → ℕ
  | 0, _ => 0
  | fuel + 1, n => if 2 ≤ n then floorLog2 fuel (n / 2) + 1 else 0

/-- Fueled decimal digit count (structural recursion, kernel-reducible). -/
def digitCount10 : ℕ → ℕ → ℕ
  | 0, _ => 1
  | fuel + 1, n => if n < 10 then 1 else digitCount10 fuel (n / 10) + 1

/-- Round a positive rational `q` with `1 ≤ q` to the nearest IEEE-754
binary64 value (53-bit significand, round half to even), returned as the
exact rational that double denotes. -/
def roundToDouble (q : PosRat) : PosRat :=
  let e := floorLog2 64 (pqFloor q)
  if e ≤ 52 then
    (pqRoundHalfEven (pqMulNat q (2 ^ (52 - e))), 2 ^ (52 - e))
  else
    (pqRoundHalfEven (pqDivNat q (2 ^ (e - 52))) * 2 ^ (e - 52), 1)

/-- Round `q` (with `1 ≤ q`) to `k` significant decimal digits, returned
as a mantissa/scale pair denoting `m / 10^p` (`p` may be negative). -/
def roundSigMP (q : PosRat) (k : ℕ) : ℕ × ℤ :=
  let dgs := digitCount10 64 (pqFloor q)
  if dgs ≤ k then
    (pqRoundHalfEven (pqMulNat q (10 ^ (k - dgs))), ((k - dgs : ℕ) : ℤ))
  else
    (pqRoundHalfEven (pqDivNat q (10 ^ (dgs - k))), -((dgs - k : ℕ) : ℤ))

/-- The exact rational a mantissa/scale pair `m / 10^p` denotes: what
CPython's correctly rounded `float(...)` parses from the corresponding
decimal string, before rounding to a double. -/
def sigVal (mp : ℕ × ℤ) : PosRat :=
  if 0 ≤ mp.2 then (mp.1, 10 ^ mp.2.toNat) else (mp.1 * 10 ^ (-mp.2).toNat, 1)

/-- The number of significant digits of the shortest decimal string that
parses back to the double `d`: CPython's `repr` digit count (at most 17
digits always suffice for binary64). -/
def shortestReprDigits (d : PosRat) : ℕ :=
  (((List.range 17).map (· + 1)).find? fun k =>
    pqEq (roundToDouble (sigVal (roundSigMP d k))) d).getD 17

/-- Decimal digits of a natural number (fueled, kernel-reducible). -/
def natDecChars : ℕ → ℕ → List Char
  | 0, _ => []
  | fuel + 1, n =>
    if n < 10 then [Char.ofNat (48 + n)]
    else natDecChars fuel (n / 10) ++ [Char.ofNat (48 + n % 10)]

/-- Decimal string of a natural number. -/
def natStr (n : ℕ) : String := ⟨natDecChars 64 n⟩

/-- Render a mantissa/scale pair `m / 10^p` in CPython's fixed-point
float notation: an integer-valued float prints with a trailing `.0`,
otherwise the fractional digits are zero-padded to `p` places.  (CPython
switches to scientific notation only outside the magnitude range
exercised here.) -/
def formatFixed (m : ℕ) (p : ℤ) : String :=
  if p ≤ 0 then natStr (m * 10 ^ (-p).toNat) ++ ".0"
  else
    let ip := m / 10 ^ p.toNat
    let fp := m % 10 ^ p.toNat
    let fs := natStr fp
    natStr ip ++ "." ++ ⟨List.replicate (p.toNat - fs.length) '0'⟩ ++ fs

/-- CPython `repr` of a finite positive double `d` (given as its exact
rational value): shortest round-tripping decimal, fixed-point notation. -/
def pyFloatRepr (d : PosRat) : String :=
  let k := shortestReprDigits d
  let mp := roundSigMP d k
  formatFixed mp.1 mp.2

/-- A Python value that can sit in `args.tf_version`: the `--tf_version`
flag arrives as a string, while the default (line 9) is the float literal
`2.4`.  A float is carried as the exact rational its double denotes. -/
inductive PyVal where
  | pyFloat (x : PosRat)
  | pyStr (s : String)

/-- Interpolation of a Python value by `str.format` (the `str` of the value). -/
def pyFormat : PyVal → String
  | .pyFloat x => pyFloatRepr x
  | .pyStr s => s

/-- The double denoted by the Python float literal `2.4`: the binary64
value nearest to 24/10. -/
def double24 : PosRat := roundToDouble (12, 5)

/-- Source line 9: `parser.add_argument('--tf_version', default=2.4, ...)` —
the default is the float `2.4`, not a string. -/
def defaultTfVersion : PyVal := .pyFloat double24

/-- Does the event issue a push, i.e. is it an external command whose text
starts with `"git push"`?  Used to state which runs perform a push. -/
def Event.isPush : Event → Bool
  | .system c => decide ("git push".data <+: c.data)
  | _ => false

/-- The trace of `main` with the three branch-name slots abstracted: `tb`
stands for the target branch, `ub` for the upstream branch and `sb` for the
sync branch, wherever a branch name occurs in an issued command.  `runMain`
factors through this template at `tf_branch v`, `git_branch v`,
`sync_branch v` — every branch name in every command of one run comes from
the same version value. -/
def traceTemplate (tb ub sb v so se : String) : List Event :=
  [Event.system cloneCmd,
   Event.chdir "aws-tensorflow/",
   Event.system ("git checkout " ++ tb),
   Event.system ("git checkout -b " ++ sb),
   Event.system remoteAddCmd,
   Event.printed ("git pull --commit google " ++ ub),
   Event.runCapture ["git", "pull", "--commit", "google", ub],
   Event.consoleErr se,
   Event.printed so,
   Event.system "git status"] ++
  (if upToDate so then
    [Event.printed "Branch already up to date."]
  else
    [Event.system ("git push --set-upstream origin " ++ sb),
     Event.system ("aws codecommit create-pull-request --title \"TF" ++ v ++
       " git sync\" --description \"Sync tf " ++ v ++
       " with vanilla tf branch\" --client-request-token request_token" ++
       " --targets repositoryName=aws-tensorflow,sourceReference=" ++ sb ++
       ",destinationReference=" ++ tb)])

/-!
Helper lemmas: the commands the source builds by inline `str.format`
interpolation coincide with those built from the derived branch names.
-/

/-- The inline-formatted branch-creation command (source line 20) names
exactly the derived sync branch. -/
theorem checkoutNew_cmd_eq (v : String) :
    "git checkout -b r" ++ v ++ "_aws_git" = "git checkout -b " ++ sync_branch v := by
  unfold sync_branch
  rw [← String.append_assoc, ← String.append_assoc]
  rfl

/-- The inline-formatted push command (source line 29) names exactly the
derived sync branch. -/
theorem push_cmd_eq (v : String) :
    "git push --set-upstream origin r" ++ v ++ "_aws_git" =
      "git push --set-upstream origin " ++ sync_branch v := by
  unfold sync_branch
  rw [← String.append_assoc, ← String.append_assoc]
  rfl

/-- C1: for every version identifier `v`, the upstream branch is `"r" ++ v`,
the target branch is the upstream branch name with the fork suffix `"_aws"`
appended (the spec's `_vendor` branch), and the sync branch is the target
branch name with the suffix `"_git"` appended (the spec's `_sync` branch). -/
theorem branch_name_derivation (v : String) :
    git_branch v = "r" ++ v ∧
    tf_branch v = git_branch v ++ "_aws" ∧
    sync_branch v = tf_branch v ++ "_git" := by
  refine ⟨rfl, rfl, ?_⟩
  unfold sync_branch tf_branch
  conv_rhs => rw [String.append_assoc]
  rfl

/-- C2: whenever the captured merge output contains the substring
`"Already up to date"`, whatever surrounds it, the run is a no-op: the
trace is exactly the clone/checkout/branch/remote/merge/status prefix
followed by the informational message — no push and no pull-request
creation occur. -/
theorem already_up_to_date_noop (v so se : String) (ex : String → Int)
    (h : pyIn "Already up to date" so = true) :
    runMain v so se ex =
      [Event.system cloneCmd,
       Event.chdir "aws-tensorflow/",
       Event.system ("git checkout " ++ tf_branch v),
       Event.system ("git checkout -b " ++ sync_branch v),
       Event.system remoteAddCmd,
       Event.printed ("git pull --commit google " ++ git_branch v),
       Event.runCapture (pullArgv v),
       Event.consoleErr se,
       Event.printed so,
       Event.system "git status",
       Event.printed "Branch already up to date."] := by
  unfold runMain
  have hu : upToDate so = true := h
  rw [if_pos hu, checkoutNew_cmd_eq]
  rfl

/-- Witness for C2 at a concrete input. -/
theorem already_up_to_date_noop_witness :
    pyIn "Already up to date" "Already up to date.\n" = true ∧
    runMain "2.4" "Already up to date.\n" "" (fun _ => 0) =
      [Event.system cloneCmd,
       Event.chdir "aws-tensorflow/",
       Event.system ("git checkout " ++ tf_branch "2.4"),
       Event.system ("git checkout -b " ++ sync_branch "2.4"),
       Event.system remoteAddCmd,
       Event.printed ("git pull --commit google " ++ git_branch "2.4"),
       Event.runCapture (pullArgv "2.4"),
       Event.consoleErr "",
       Event.printed "Already up to date.\n",
       Event.system "git status",
       Event.printed "Branch already up to date."] :=
  ⟨by decide,
   already_up_to_date_noop "2.4" "Already up to date.\n" "" (fun _ => 0) (by decide)⟩

/-- C3: whenever the captured merge output does not contain the substring
`"Already up to date"` — the empty text included — the run takes the sync
path: after the fixed prefix it pushes the derived sync branch with
`--set-upstream` and then issues the pull-request creation command. -/
theorem merge_changes_sync (v so se : String) (ex : String → Int)
    (h : pyIn "Already up to date" so = false) :
    runMain v so se ex =
      [Event.system cloneCmd,
       Event.chdir "aws-tensorflow/",
       Event.system ("git checkout " ++ tf_branch v),
       Event.system ("git checkout -b " ++ sync_branch v),
       Event.system remoteAddCmd,
       Event.printed ("git pull --commit google " ++ git_branch v),
       Event.runCapture (pullArgv v),
       Event.consoleErr se,
       Event.printed so,
       Event.system "git status",
       Event.system ("git push --set-upstream origin " ++ sync_branch v),
       Event.system (prCmd v)] := by
  unfold runMain
  have hu : ¬ upToDate so = true := by
    unfold upToDate
    rw [h]
    exact Bool.false_ne_true
  rw [if_neg hu, checkoutNew_cmd_eq, push_cmd_eq]
  rfl

/-- Witness for C3 at a concrete input (the empty merge output). -/
theorem merge_changes_sync_witness :
    pyIn "Already up to date" "" = false ∧
    runMain "2.6" "" "" (fun _ => 0) =
      [Event.system cloneCmd,
       Event.chdir "aws-tensorflow/",
       Event.system ("git checkout " ++ tf_branch "2.6"),
       Event.system ("git checkout -b " ++ sync_branch "2.6"),
       Event.system remoteAddCmd,
       Event.printed ("git pull --commit google " ++ git_branch "2.6"),
       Event.runCapture (pullArgv "2.6"),
       Event.consoleErr "",
       Event.printed "",
       Event.system "git status",
       Event.system ("git push --set-upstream origin " ++ sync_branch "2.6"),
       Event.system (prCmd "2.6")] :=
  ⟨by decide, merge_changes_sync "2.6" "" "" (fun _ => 0) (by decide)⟩

/-- Events that are not external commands never count as a push. -/
theorem isPush_chdir (d : String) : Event.isPush (Event.chdir d) = false := rfl

/-- A print event never counts as a push. -/
theorem isPush_printed (m : String) : Event.isPush (Event.printed m) = false := rfl

/-- The captured merge invocation never counts as a push. -/
theorem isPush_runCapture (a : List String) : Event.isPush (Event.runCapture a) = false := rfl

/-- Uncaptured stderr never counts as a push. -/
theorem isPush_consoleErr (m : String) : Event.isPush (Event.consoleErr m) = false := rfl

/-- A command whose first eight characters are not `"git push"` is not a
push, whatever is appended to it. -/
theorem notPush_of_ne (lit s : String)
    (hlen : 8 ≤ lit.data.length) (h : lit.data.take 8 ≠ "git push".data) :
    Event.isPush (Event.system (lit ++ s)) = false := by
  unfold Event.isPush
  simp only [decide_eq_false_iff_not]
  intro hp
  rw [String.data_append] at hp
  have h8 : ("git push".data).length = 8 := rfl
  have ht := List.prefix_iff_eq_take.mp hp
  rw [h8, List.take_append_eq_append_take, Nat.sub_eq_zero_of_le hlen,
    List.take_zero, List.append_nil] at ht
  exact h ht.symm

/-- A command starting with `"git push"` is a push, whatever is appended. -/
theorem isPush_of_lit (lit s : String) (h : "git push".data <+: lit.data) :
    Event.isPush (Event.system (lit ++ s)) = true := by
  unfold Event.isPush
  simp only [decide_eq_true_eq]
  rw [String.data_append]
  exact h.trans (List.prefix_append lit.data s.data)

/-- The pull-request command factors through the derived branch names: its
`sourceReference` is the sync branch and its `destinationReference` is the
target branch. -/
theorem pr_cmd_template_eq (v : String) :
    prCmd v =
      "aws codecommit create-pull-request --title \"TF" ++ v ++
      " git sync\" --description \"Sync tf " ++ v ++
      " with vanilla tf branch\" --client-request-token request_token" ++
      " --targets repositoryName=aws-tensorflow,sourceReference=" ++ sync_branch v ++
      ",destinationReference=" ++ tf_branch v := by
  unfold prCmd sync_branch
  simp only [String.append_assoc]
  rw [← String.append_assoc " --targets repositoryName=aws-tensorflow,sourceReference=" "r",
    ← String.append_assoc "_aws_git" ",destinationReference="]
  rfl

/-- C4 counterexample: the inspection is for `"Already up to date"` with a
capital `A`, not for the lowercase literal `"already up to date"`.  An
output containing the lowercase literal (and not the capitalised one) is
classified as not up to date, and the run pushes. -/
theorem lowercase_literal_counterexample :
    pyIn "already up to date" "Merge says: already up to date" = true ∧
    upToDate "Merge says: already up to date" = false ∧
    (runMain "2.4" "Merge says: already up to date" "" (fun _ => 0)).any
      Event.isPush = true := by
  decide

/-- C4 (amended): the merge-output inspection tests, case-sensitively, for
the literal substring `"Already up to date"` (capital `A`, as produced by
the underlying tool): a run issues no push command if and only if the
captured output contains that exact literal. -/
theorem up_to_date_classification (v so se : String) (ex : String → Int) :
    ((runMain v so se ex).any Event.isPush = false) ↔
      pyIn "Already up to date" so = true := by
  unfold runMain
  have hclone : Event.isPush (Event.system cloneCmd) = false := by decide
  have hremote : Event.isPush (Event.system remoteAddCmd) = false := by decide
  have hstatus : Event.isPush (Event.system "git status") = false := by decide
  cases h : upToDate so with
  | true =>
    rw [if_pos rfl]
    have hp : pyIn "Already up to date" so = true := h
    rw [hp]
    simp only [List.any_append, List.any_cons, List.any_nil,
      String.append_assoc "git checkout -b r" v "_aws_git",
      hclone, hremote, hstatus, isPush_chdir, isPush_printed, isPush_runCapture,
      isPush_consoleErr,
      notPush_of_ne "git checkout " (tf_branch v) (by decide) (by decide),
      notPush_of_ne "git checkout -b r" (v ++ "_aws_git") (by decide) (by decide)]
    simp
  | false =>
    rw [if_neg (by simp)]
    have hp : pyIn "Already up to date" so = false := h
    rw [hp]
    unfold prCmd
    simp only [List.any_append, List.any_cons, List.any_nil, String.append_assoc,
      isPush_of_lit "git push --set-upstream origin r" (v ++ "_aws_git") (by decide)]
    simp

/-- C5: the pull-request creation command embeds the exact version value in
both its title (`TF{v} git sync`) and its description
(`Sync tf {v} with vanilla tf branch`), references the derived sync branch
as source and the derived target branch as destination, and carries the
fixed client-request token `request_token`, independent of `v`. -/
theorem pr_command_parameters (v : String) :
    prCmd v =
      "aws codecommit create-pull-request --title \"" ++
      ("TF" ++ v ++ " git sync") ++
      "\" --description \"" ++
      ("Sync tf " ++ v ++ " with vanilla tf branch") ++
      "\" --client-request-token " ++ "request_token" ++
      " --targets repositoryName=aws-tensorflow,sourceReference=" ++ sync_branch v ++
      ",destinationReference=" ++ tf_branch v := by
  unfold prCmd sync_branch
  simp only [String.append_assoc]
  rw [← String.append_assoc "aws codecommit create-pull-request --title \"" "TF",
    ← String.append_assoc " git sync" "\" --description \"",
    ← String.append_assoc (" git sync" ++ "\" --description \"") "Sync tf ",
    ← String.append_assoc " with vanilla tf branch" "\" --client-request-token ",
    ← String.append_assoc (" with vanilla tf branch" ++ "\" --client-request-token ")
      "request_token",
    ← String.append_assoc " --targets repositoryName=aws-tensorflow,sourceReference=" "r",
    ← String.append_assoc "_aws_git" ",destinationReference="]
  rfl

/-- C6: in every run the external-process invocations begin, in this exact
order, with: clone, change of directory into the clone, checkout of the
target branch, creation of the sync branch, addition of the upstream
remote, the captured merge, and the status report — before any
decision-dependent step. -/
theorem external_invocation_order (v so se : String) (ex : String → Int) :
    ((runMain v so se ex).filter Event.isExternal).take 7 =
      [Event.system cloneCmd,
       Event.chdir "aws-tensorflow/",
       Event.system ("git checkout " ++ tf_branch v),
       Event.system ("git checkout -b " ++ sync_branch v),
       Event.system remoteAddCmd,
       Event.runCapture (pullArgv v),
       Event.system "git status"] := by
  unfold runMain
  cases h : upToDate so with
  | true => rw [if_pos rfl, checkoutNew_cmd_eq]; rfl
  | false => rw [if_neg (by simp), checkoutNew_cmd_eq]; rfl

/-- C7: one run's trace factors through the trace template applied to the
three branch names derived from the single version value of that run —
every branch name occurring in any issued command is `tf_branch v`,
`git_branch v` or `sync_branch v` for the one same `v`. -/
theorem single_version_branches (v so se : String) (ex : String → Int) :
    runMain v so se ex =
      traceTemplate (tf_branch v) (git_branch v) (sync_branch v) v so se := by
  unfold runMain traceTemplate
  rw [checkoutNew_cmd_eq, push_cmd_eq, pr_cmd_template_eq]
  rfl

/-- C8: the exit status of every fire-and-forget external invocation is
discarded: the trace is the same whatever statuses the external commands
return (no failure is caught, classified, or stops the run — `runMain` is
total and always reaches the final decision step, its trace always holding
the full ten-event prefix). -/
theorem exit_status_never_inspected (v so se : String) (ex ex2 : String → Int) :
    runMain v so se ex = runMain v so se ex2 ∧
    10 ≤ (runMain v so se ex).length := by
  refine ⟨rfl, ?_⟩
  unfold runMain
  cases h : upToDate so with
  | true => rw [if_pos rfl]; simp
  | false => rw [if_neg (by simp)]; simp

/-- C9: the default version identifier is the Python float `2.4` (not a
string); CPython renders it as `"2.4"`, so the branch names derived from
the default are exactly `r2.4_aws`, `r2.4` and `r2.4_aws_git` — the same
names derived from the string `"2.4"`. -/
theorem default_version_branches :
    pyFormat defaultTfVersion = "2.4" ∧
    tf_branch (pyFormat defaultTfVersion) = "r2.4_aws" ∧
    git_branch (pyFormat defaultTfVersion) = "r2.4" ∧
    sync_branch (pyFormat defaultTfVersion) = "r2.4_aws_git" ∧
    tf_branch (pyFormat defaultTfVersion) = tf_branch (pyFormat (PyVal.pyStr "2.4")) ∧
    git_branch (pyFormat defaultTfVersion) = git_branch (pyFormat (PyVal.pyStr "2.4")) ∧
    sync_branch (pyFormat defaultTfVersion) = sync_branch (pyFormat (PyVal.pyStr "2.4")) := by
  decide

/-- C10: the sync-versus-no-op decision is a function of the captured
stdout alone: with the same version and the same captured stdout, the
trace minus the uncaptured-stderr console output is identical — and in
particular whether a push happens is identical — whatever the merge wrote
to stderr and whatever the fire-and-forget exit statuses were.  Text on
stderr can never make a run count as already up to date. -/
theorem decision_depends_only_on_stdout (v so se1 se2 : String)
    (ex1 ex2 : String → Int) :
    ((runMain v so se1 ex1).filter (fun e => ! e.isConsoleErr) =
      (runMain v so se2 ex2).filter (fun e => ! e.isConsoleErr)) ∧
    ((runMain v so se1 ex1).any Event.isPush =
      (runMain v so se2 ex2).any Event.isPush) := by
  exact ⟨rfl, rfl⟩
